import Mathlib

/-!
Verification of the PL2303 user-space USB serial driver (`src/index.js`)
against its natural-language specification.

The JavaScript source is shallowly embedded: pure computations become Lean
functions, the asynchronous promise chain of the bring-up sequence becomes a
sequential executor over an environment (oracle) that supplies the outcome of
each USB control transfer, and fallible operations return `Except`.
-/

namespace PL2303

/-- The fixed table of supported baud rates (`SupportedBaudrates` in the
source, `src/index.js` lines 20-25). -/
def SupportedBaudrates : List Nat :=
  [75, 150, 300, 600, 1200, 1800, 2400, 3600,
   4800, 7200, 9600, 14400, 19200, 28800, 38400,
   57600, 115200, 230400, 460800, 614400,
   921600, 1228800, 2457600, 3000000, 6000000]

/-- Absolute difference `|a - b|` on naturals: the value of JavaScript `Math.abs(a - b)` for
integer inputs. -/
def absDiff (a b : Nat) : Nat := (a - b) + (b - a)

/-- The comparator passed to `Array.prototype.sort` in `setBaudrate`
(`(a, b) => Math.abs(a - baud) - Math.abs(b - baud)`), rendered as the
induced boolean "less or equal" on sort keys: `a` may be placed before `b`
iff its distance to the requested rate is not larger. -/
def baudLE (baud a b : Nat) : Bool := absDiff a baud ≤ absDiff b baud

/-- Embedding of `SupportedBaudrates.slice().sort(comparator)` from `setBaudrate`
(`src/index.js` line 59).  ECMAScript 2019 requires `Array.prototype.sort`
to be stable, and `List.mergeSort` is a stable sort, so this embeds the
source's sort faithfully including tie-breaking. -/
def sortedByDistance (baud : Nat) : List Nat :=
  SupportedBaudrates.mergeSort (baudLE baud)

/-- Embedding of `const newBaud = list[0]` from `setBaudrate` (`src/index.js` line 60):
the head of the distance-sorted table. -/
def nearestBaud (baud : Nat) : Nat := (sortedByDistance baud).headD 0

/-- A USB control-transfer request as issued through
`controlTransfer(device, requestType, request, value, index, dataOrLength)`:
an IN transfer carries a requested length, an OUT transfer carries a data
payload. -/
inductive Req where
  | ctrlIn (requestType request value index length : Nat)
  | ctrlOut (requestType request value index : Nat) (data : List Nat)
deriving DecidableEq

/-- Embedding of `vendorRead(device, value, index)`: control transfer with request type
0xc0, request 0x01, reading 1 byte (`src/index.js` lines 47-50). -/
def vendorReadReq (value index : Nat) : Req :=
  .ctrlIn 0xc0 0x01 value index 1

/-- Embedding of `vendorWrite(device, value, index)`: control transfer with request type
0x40, request 0x01 and an always-empty payload (`Buffer.alloc(0)`,
`src/index.js` lines 52-54). -/
def vendorWriteReq (value index : Nat) : Req :=
  .ctrlOut 0x40 0x01 value index []

/-- The payload of a request: the data of an OUT transfer; IN transfers
carry none. -/
def Req.payload : Req → List Nat
  | .ctrlIn _ _ _ _ _ => []
  | .ctrlOut _ _ _ _ d => d

/-- The request type field of a request. -/
def Req.requestType : Req → Nat
  | .ctrlIn rt _ _ _ _ => rt
  | .ctrlOut rt _ _ _ _ => rt

/-- The payload `vendorWrite` would need per the spec sentence
"payload = numeric value (0 length if value is 0 ...)": empty for value 0,
otherwise a payload carrying the value. -/
def specVendorWritePayload (value : Nat) : List Nat :=
  if value = 0 then [] else [value]

/-- In-place mutation of the 7-byte line-configuration template performed in
`setBaudrate` (`src/index.js` lines 64-67): `writeInt32LE(newBaud, 0)`
followed by `parameters[4] = 0`, `parameters[5] = 0`, `parameters[6] = 8`.
Little-endian byte extraction is spelled out; `List.set` out of range is a
no-op, matching `Buffer` index assignment. -/
def mutateParams (v : Nat) (t : List Nat) : List Nat :=
  ((((((t.set 0 (v % 256)).set 1 (v / 256 % 256)).set 2
      (v / 65536 % 256)).set 3 (v / 16777216 % 256)).set 4 0).set 5 0).set 6 8

/-- The 7-byte line-configuration block for rate `v`: bytes 0-3 are `v`
little-endian, byte 4 = 0 (one stop bit), byte 5 = 0 (no parity),
byte 6 = 8 (eight data bits). -/
def lineConfigBytes (v : Nat) : List Nat :=
  [v % 256, v / 256 % 256, v / 65536 % 256, v / 16777216 % 256, 0, 0, 8]

/-- An error terminating the bring-up chain: a transport-level failure of a
control transfer (carrying an opaque code), or the `assert(baud <= 115200)`
failure in `setBaudrate`. -/
inductive BringupError where
  | transport (code : Nat)
  | assertionFailed
deriving DecidableEq

/-- A user-visible notification emitted by the bring-up chain: `ready` on
success, `error` from the single `.catch` handler. -/
inductive Event where
  | ready
  | error (e : BringupError)
deriving DecidableEq

/-- The transfer oracle: the outcome (response bytes, or a transport error
code) of the n-th control transfer issued by the bring-up chain. -/
abbrev Env := Nat → Except Nat (List Nat)

/-- Sequential executor for a straight-line chain of control transfers.
Each step builds its request from the previous step's response data (only
the line-configuration write actually uses it), issues it, and continues
only if the environment reports success — embedding the promise `.then`
chain.  Returns the issued requests, the last response data, and the first
transport error if any. -/
def go (env : Env) : Nat → List Nat → List (List Nat → Req) →
    List Req × List Nat × Option Nat
  | _, last, [] => ([], last, none)
  | k, last, f :: rest =>
    match env k with
    | .error e => ([f last], last, some e)
    | .ok d =>
      let r := go env (k + 1) d rest
      (f last :: r.1, r.2.1, r.2.2)

/-- Steps 1-11 of the bring-up chain (`src/index.js` lines 112-122): the
fixed vendor register reads and writes before `setBaudrate`. -/
def preSteps : List (List Nat → Req) :=
  [fun _ => vendorReadReq 0x8484 0,
   fun _ => vendorWriteReq 0x0404 0,
   fun _ => vendorReadReq 0x8484 0,
   fun _ => vendorReadReq 0x8383 0,
   fun _ => vendorReadReq 0x8484 0,
   fun _ => vendorWriteReq 0x0404 1,
   fun _ => vendorReadReq 0x8484 0,
   fun _ => vendorReadReq 0x8383 0,
   fun _ => vendorWriteReq 0 1,
   fun _ => vendorWriteReq 1 0,
   fun _ => vendorWriteReq 2 0x44]

/-- The transfers issued by `setBaudrate` after its assertion
(`src/index.js` lines 61-72): read the 7-byte line configuration
(request type 0xa1, request 0x21), write back the mutated block
(request type 0x21, request 0x20), then the three vendor writes disabling
flow control and resetting the data pipes. -/
def baudSteps (baud : Nat) : List (List Nat → Req) :=
  [fun _ => Req.ctrlIn 0xa1 0x21 0 0 7,
   fun t => Req.ctrlOut 0x21 0x20 0 0 (mutateParams (nearestBaud baud) t),
   fun _ => vendorWriteReq 0 0,
   fun _ => vendorWriteReq 8 0,
   fun _ => vendorWriteReq 9 0]

/-- The whole bring-up chain of the `UsbSerial` constructor
(`src/index.js` lines 112-126): the eleven fixed register operations, then
`setBaudrate` — whose `assert(baud <= 115200)` runs before it issues any
transfer — then `ready` on success; the single `.catch` turns the first
failure into one `error` event.  Returns the issued requests and the
emitted events. -/
def runBringup (env : Env) (baud : Nat) : List Req × List Event :=
  let p := go env 0 [] preSteps
  match p.2.2 with
  | some e => (p.1, [.error (.transport e)])
  | none =>
    if baud ≤ 115200 then
      let q := go env 11 p.2.1 (baudSteps baud)
      match q.2.2 with
      | some e => (p.1 ++ q.1, [.error (.transport e)])
      | none => (p.1 ++ q.1, [.ready])
    else (p.1, [.error .assertionFailed])

/-- The full request trace of a successful bring-up at negotiated rate `b`:
the fixed order of §4.3 steps 1-15, with the read-modify-write of step 12
expanded into its read (index 11) and write (index 12). -/
def expectedTrace (b : Nat) : List Req :=
  [vendorReadReq 0x8484 0,
   vendorWriteReq 0x0404 0,
   vendorReadReq 0x8484 0,
   vendorReadReq 0x8383 0,
   vendorReadReq 0x8484 0,
   vendorWriteReq 0x0404 1,
   vendorReadReq 0x8484 0,
   vendorReadReq 0x8383 0,
   vendorWriteReq 0 1,
   vendorWriteReq 1 0,
   vendorWriteReq 2 0x44,
   Req.ctrlIn 0xa1 0x21 0 0 7,
   Req.ctrlOut 0x21 0x20 0 0 (lineConfigBytes b),
   vendorWriteReq 0 0,
   vendorWriteReq 8 0,
   vendorWriteReq 9 0]

/-- A USB device as seen through the fields the constructor inspects:
descriptor identity, class, max control-packet size, and the number of
exposed interfaces. -/
structure UsbDevice where
  idVendor : Nat
  idProduct : Nat
  bDeviceClass : Nat
  bMaxPacketSize0 : Nat
  interfaceCount : Nat
deriving DecidableEq

/-- Embedding of `findDevices(vid, pid)` (`src/index.js` lines 14-18): filter the device
list by vendor and product id. -/
def findDevices (vid pid : Nat) (all : List UsbDevice) : List UsbDevice :=
  all.filter fun d => d.idVendor == vid && d.idProduct == pid

/-- A construction-time assertion failure in the `UsbSerial` constructor. -/
inductive OpenError where
  | notEnoughDevices
  | reservedClass
  | wrongPacketSize
  | wrongInterfaceCount
deriving DecidableEq

/-- The precondition checks of the `UsbSerial` constructor
(`src/index.js` lines 80-90): enough matching devices, selected device's
class is not 0x02, max control-packet size is 0x40 (HX type), exactly one
interface; on success the session holds the selected device. -/
def openSession (all : List UsbDevice) (port : Nat) : Except OpenError UsbDevice :=
  let devices := findDevices 0x067b 0x2303 all
  if h : port < devices.length then
    let device := devices[port]
    if device.bDeviceClass = 0x02 then .error .reservedClass
    else if device.bMaxPacketSize0 ≠ 0x40 then .error .wrongPacketSize
    else if device.interfaceCount ≠ 1 then .error .wrongInterfaceCount
    else .ok device
  else .error .notEnoughDevices

/-- A JavaScript value passed to `send`: a `Buffer`, or one of the
non-`Buffer` shapes relevant to the `instanceof` check. -/
inductive JsValue where
  | buffer (bytes : List Nat)
  | str (s : String)
  | num (n : Int)
  | undef
deriving DecidableEq

/-- Embedding of `UsbSerial.send(data)` (`src/index.js` lines 137-140):
`assert(data instanceof Buffer)` then a single fire-and-forget bulk-out
transfer of exactly those bytes.  Returns the list of issued bulk-out
payloads, or the assertion failure; no completion value is surfaced. -/
def send (v : JsValue) : Except BringupError (List (List Nat)) :=
  match v with
  | .buffer b => .ok [b]
  | _ => .error .assertionFailed

/-! ## Properties of the baud-rate negotiator -/

theorem baudLE_trans (r : Nat) : ∀ a b c, baudLE r a b → baudLE r b c → baudLE r a c := by
  intro a b c hab hbc
  simp only [baudLE, decide_eq_true_eq] at *
  omega

theorem baudLE_total (r : Nat) : ∀ a b, baudLE r a b || baudLE r b a := by
  intro a b
  simp only [baudLE, Bool.or_eq_true, decide_eq_true_eq]
  omega

theorem sortedByDistance_cons (r : Nat) :
    ∃ t, sortedByDistance r = nearestBaud r :: t := by
  cases hs : sortedByDistance r with
  | nil =>
    exfalso
    have hlen := congrArg List.length hs
    simp [sortedByDistance, List.length_mergeSort, SupportedBaudrates] at hlen
  | cons x t =>
    refine ⟨t, ?_⟩
    rw [nearestBaud, hs]
    rfl

theorem nearestBaud_mem (r : Nat) : nearestBaud r ∈ SupportedBaudrates := by
  obtain ⟨t, hs⟩ := sortedByDistance_cons r
  have hmem : nearestBaud r ∈ sortedByDistance r := by
    rw [hs]; exact List.mem_cons_self _ _
  rw [sortedByDistance] at hmem
  exact List.mem_mergeSort.mp hmem

theorem nearestBaud_min (r : Nat) :
    ∀ b ∈ SupportedBaudrates, absDiff (nearestBaud r) r ≤ absDiff b r := by
  intro b hb
  obtain ⟨t, hs⟩ := sortedByDistance_cons r
  have hsorted : (sortedByDistance r).Pairwise (fun a c => baudLE r a c) :=
    List.sorted_mergeSort (baudLE_trans r) (baudLE_total r) SupportedBaudrates
  have hbmem : b ∈ sortedByDistance r := by
    rw [sortedByDistance]
    exact List.mem_mergeSort.mpr hb
  rw [hs] at hsorted hbmem
  rcases List.mem_cons.mp hbmem with rfl | hbt
  · exact le_refl _
  · have hle := (List.pairwise_cons.mp hsorted).1 b hbt
    simpa [baudLE] using hle

theorem pair_sublist_of_ascending :
    ∀ {l : List Nat}, l.Pairwise (· < ·) →
      ∀ {a b : Nat}, a ∈ l → b ∈ l → a < b → List.Sublist [a, b] l := by
  intro l hl
  induction l with
  | nil => intro a b ha; exact absurd ha (List.not_mem_nil a)
  | cons x xs ih =>
    intro a b ha hb hab
    rw [List.pairwise_cons] at hl
    rcases List.mem_cons.mp ha with rfl | ha2
    · rcases List.mem_cons.mp hb with rfl | hb2
      · exact absurd hab (lt_irrefl _)
      · exact (List.singleton_sublist.mpr hb2).cons₂ a
    · rcases List.mem_cons.mp hb with rfl | hb2
      · exact absurd (lt_trans hab (hl.1 a ha2)) (lt_irrefl _)
      · exact (ih hl.2 ha2 hb2 hab).cons x

theorem mem_tail_of_pair_sublist :
    ∀ {b s0 : Nat} {t : List Nat}, List.Sublist [b, s0] (s0 :: t) → b ≠ s0 → s0 ∈ t := by
  intro b s0 t h hne
  cases h with
  | cons _ h2 => exact h2.subset (by simp)
  | cons₂ _ h2 => exact absurd rfl hne

theorem supportedBaudrates_ascending : SupportedBaudrates.Pairwise (· < ·) := by
  decide

theorem supportedBaudrates_nodup : SupportedBaudrates.Nodup := by
  decide

theorem nearestBaud_least_tie (r : Nat) :
    ∀ b ∈ SupportedBaudrates,
      absDiff b r = absDiff (nearestBaud r) r → nearestBaud r ≤ b := by
  intro b hb heq
  by_contra hlt
  push_neg at hlt
  have hne : b ≠ nearestBaud r := Nat.ne_of_lt hlt
  have hsub : List.Sublist [b, nearestBaud r] SupportedBaudrates :=
    pair_sublist_of_ascending supportedBaudrates_ascending hb (nearestBaud_mem r) hlt
  have hab : baudLE r b (nearestBaud r) := by
    simp [baudLE, heq]
  have hsub2 : List.Sublist [b, nearestBaud r] (sortedByDistance r) :=
    List.pair_sublist_mergeSort (baudLE_trans r) (baudLE_total r) hab hsub
  obtain ⟨t, hs⟩ := sortedByDistance_cons r
  rw [hs] at hsub2
  have hmemt : nearestBaud r ∈ t := mem_tail_of_pair_sublist hsub2 hne
  have hnodup : (sortedByDistance r).Nodup :=
    (List.mergeSort_perm SupportedBaudrates (baudLE r)).symm.nodup
      supportedBaudrates_nodup
  rw [hs] at hnodup
  exact (List.nodup_cons.mp hnodup).1 hmemt

theorem nearestBaud_idem {r : Nat} (hr : r ∈ SupportedBaudrates) :
    nearestBaud r = r := by
  have h := nearestBaud_min r r hr
  simp only [absDiff] at h
  omega

theorem nearestBaud_le (r : Nat) : nearestBaud r ≤ 6000000 := by
  have hmem := nearestBaud_mem r
  have hall : ∀ x ∈ SupportedBaudrates, x ≤ 6000000 := by decide
  exact hall _ hmem

/-- Claim C1: for every requested baud rate `r ≤ 115200`, the rate selected
by `setBaudrate` is a table entry minimizing the absolute difference to `r`;
an equidistant tie is resolved to the first minimal entry in the table's
ascending order (the lower value, by sort stability); and a rate already in
the table is selected unchanged. -/
theorem claim1_nearest_baud_selection (r : Nat) (hr : r ≤ 115200) :
    nearestBaud r ∈ SupportedBaudrates ∧
    (∀ b ∈ SupportedBaudrates, absDiff (nearestBaud r) r ≤ absDiff b r) ∧
    (∀ b ∈ SupportedBaudrates,
      absDiff b r = absDiff (nearestBaud r) r → nearestBaud r ≤ b) ∧
    (r ∈ SupportedBaudrates → nearestBaud r = r) :=
  ⟨nearestBaud_mem r, nearestBaud_min r, nearestBaud_least_tie r,
   fun h => nearestBaud_idem h⟩

/-- Witness for C1 at the concrete requested rate 9600. -/
theorem claim1_nearest_baud_selection_witness :
    9600 ≤ 115200 ∧
    (nearestBaud 9600 ∈ SupportedBaudrates ∧
     (∀ b ∈ SupportedBaudrates, absDiff (nearestBaud 9600) 9600 ≤ absDiff b 9600) ∧
     (∀ b ∈ SupportedBaudrates,
       absDiff b 9600 = absDiff (nearestBaud 9600) 9600 → nearestBaud 9600 ≤ b) ∧
     (9600 ∈ SupportedBaudrates → nearestBaud 9600 = 9600)) :=
  ⟨by decide, claim1_nearest_baud_selection 9600 (by decide)⟩

/-! ## The supported-rate table, vendorWrite, and send -/

/-- Counterexample to claim C4 as stated: the table does not have 26
entries. -/
theorem claim4_counterexample : ¬ SupportedBaudrates.length = 26 := by
  decide

/-- Claim C4 (amended): the table of supported baud rates used by the
negotiator is a fixed ascending table containing exactly 25 rates. -/
theorem claim4_table_ascending_25 :
    SupportedBaudrates.length = 25 ∧ SupportedBaudrates.Pairwise (· < ·) := by
  decide

/-- Counterexample to claim C5 as stated: calling `vendorWrite` with
register index 0x0404 and numeric value 1 issues a transfer whose payload
is empty, not a payload carrying the value 1 as the claim requires for a
nonzero value. -/
theorem claim5_counterexample :
    ¬ (vendorWriteReq 0x0404 1).payload = specVendorWritePayload 1 := by
  decide

/-- Claim C5 (amended): for every register index and numeric value,
`vendorWrite(regIndex, value)` issues a host-to-device control transfer
with request type 0x40, request 0x01, the control-transfer value field
equal to `regIndex`, the control-transfer index field equal to the numeric
value, and an always zero-length data payload. -/
theorem claim5_vendor_write (regIndex value : Nat) :
    vendorWriteReq regIndex value = Req.ctrlOut 0x40 0x01 regIndex value [] ∧
    (vendorWriteReq regIndex value).payload = [] :=
  ⟨rfl, rfl⟩

/-- Claim C9: for every buffer `b`, `send(b)` issues exactly one bulk-out
transfer whose payload is exactly the bytes of `b`, and surfaces no
completion value to the caller. -/
theorem claim9_send_exact (bytes : List Nat) :
    send (.buffer bytes) = .ok [bytes] ∧ [bytes].length = 1 :=
  ⟨rfl, rfl⟩

/-- Claim C10: for every argument that is not a `Buffer`, `send` fails its
`instanceof` assertion and issues no bulk-out transfer; a transfer happens
only for `Buffer` arguments. -/
theorem claim10_send_non_buffer (v : JsValue) (h : ∀ b, v ≠ .buffer b) :
    send v = .error .assertionFailed := by
  cases v with
  | buffer b => exact absurd rfl (h b)
  | str s => rfl
  | num n => rfl
  | undef => rfl

/-- Witness for C10 at the concrete non-buffer argument `undefined`. -/
theorem claim10_send_non_buffer_witness :
    (∀ b, JsValue.undef ≠ JsValue.buffer b) ∧
    send .undef = .error .assertionFailed :=
  ⟨(fun _ h => nomatch h), claim10_send_non_buffer .undef (fun _ h => nomatch h)⟩

/-! ## Properties of the bring-up executor -/

theorem mutateParams_of_length7 {t : List Nat} (h : t.length = 7) (v : Nat) :
    mutateParams v t = lineConfigBytes v := by
  rcases t with _ | ⟨b0, _ | ⟨b1, _ | ⟨b2, _ | ⟨b3, _ | ⟨b4, _ | ⟨b5, _ | ⟨b6, _ | ⟨b7, t⟩⟩⟩⟩⟩⟩⟩⟩ <;>
    first
      | rfl
      | (simp [List.length] at h)

theorem go_ok_of_all_ok (env : Env) :
    ∀ (steps : List (List Nat → Req)) (k0 : Nat) (last : List Nat),
      (∀ j, j < steps.length → ∃ d, env (k0 + j) = .ok d) →
      (go env k0 last steps).2.2 = none ∧
      (go env k0 last steps).1.length = steps.length := by
  intro steps
  induction steps with
  | nil => intro k0 last _; simp [go]
  | cons f rest ih =>
    intro k0 last h
    obtain ⟨d, hd⟩ := h 0 (by simp)
    rw [Nat.add_zero] at hd
    have hrest : ∀ j, j < rest.length → ∃ d2, env (k0 + 1 + j) = .ok d2 := by
      intro j hj
      have h2 := h (j + 1) (by simpa using Nat.succ_lt_succ hj)
      rwa [show k0 + (j + 1) = k0 + 1 + j by omega] at h2
    have hih := ih (k0 + 1) d hrest
    simp [go, hd, hih.1, hih.2]

theorem go_fail_at (env : Env) :
    ∀ (steps : List (List Nat → Req)) (k0 : Nat) (last : List Nat) (k : Nat) (e : Nat),
      k < steps.length →
      (∀ j, j < k → ∃ d, env (k0 + j) = .ok d) →
      env (k0 + k) = .error e →
      (go env k0 last steps).2.2 = some e ∧
      (go env k0 last steps).1.length = k + 1 := by
  intro steps
  induction steps with
  | nil => intro k0 last k e hk; exact absurd hk (Nat.not_lt_zero k)
  | cons f rest ih =>
    intro k0 last k e hk hok herr
    cases k with
    | zero =>
      rw [Nat.add_zero] at herr
      simp [go, herr]
    | succ k2 =>
      obtain ⟨d, hd⟩ := hok 0 (Nat.succ_pos k2)
      rw [Nat.add_zero] at hd
      have hok2 : ∀ j, j < k2 → ∃ d2, env (k0 + 1 + j) = .ok d2 := by
        intro j hj
        have h2 := hok (j + 1) (Nat.succ_lt_succ hj)
        rwa [show k0 + (j + 1) = k0 + 1 + j by omega] at h2
      have herr2 : env (k0 + 1 + k2) = .error e := by
        rwa [show k0 + 1 + k2 = k0 + (k2 + 1) by omega]
      have hih := ih (k0 + 1) d k2 e (Nat.lt_of_succ_lt_succ hk) hok2 herr2
      simp [go, hd, hih.1, hih.2]

/-- Claim C2: for every requested rate `r ≤ 115200` and every execution in
which all transfers complete, the bring-up chain issues its register
operations in the exact fixed order of §4.3 steps 1-15 (with step 12
expanded into its read and write), each issued only after the previous
completed (the executor is strictly sequential), and only the payload of
the step-12 write varies with `r`. -/
theorem claim2_bringup_fixed_order (env : Env) (r : Nat) (hr : r ≤ 115200)
    (hok : ∀ j, j < 16 → ∃ d, env j = .ok d)
    (hlen : ∀ d, env 11 = .ok d → d.length = 7) :
    (runBringup env r).1 = expectedTrace (nearestBaud r) ∧
    (runBringup env r).2 = [.ready] ∧
    (∀ b1 b2, (expectedTrace b1).set 12 (vendorWriteReq 0 0) =
              (expectedTrace b2).set 12 (vendorWriteReq 0 0)) := by
  obtain ⟨d0, h0⟩ := hok 0 (by omega)
  obtain ⟨d1, h1⟩ := hok 1 (by omega)
  obtain ⟨d2, h2⟩ := hok 2 (by omega)
  obtain ⟨d3, h3⟩ := hok 3 (by omega)
  obtain ⟨d4, h4⟩ := hok 4 (by omega)
  obtain ⟨d5, h5⟩ := hok 5 (by omega)
  obtain ⟨d6, h6⟩ := hok 6 (by omega)
  obtain ⟨d7, h7⟩ := hok 7 (by omega)
  obtain ⟨d8, h8⟩ := hok 8 (by omega)
  obtain ⟨d9, h9⟩ := hok 9 (by omega)
  obtain ⟨d10, h10⟩ := hok 10 (by omega)
  obtain ⟨d11, h11⟩ := hok 11 (by omega)
  obtain ⟨d12, h12⟩ := hok 12 (by omega)
  obtain ⟨d13, h13⟩ := hok 13 (by omega)
  obtain ⟨d14, h14⟩ := hok 14 (by omega)
  obtain ⟨d15, h15⟩ := hok 15 (by omega)
  have hmut := mutateParams_of_length7 (hlen d11 h11) (nearestBaud r)
  refine ⟨?_, ?_, ?_⟩
  · simp [runBringup, go, preSteps, baudSteps, expectedTrace, hr, hmut,
      h0, h1, h2, h3, h4, h5, h6, h7, h8, h9, h10, h11, h12, h13, h14, h15]
  · simp [runBringup, go, preSteps, baudSteps, hr,
      h0, h1, h2, h3, h4, h5, h6, h7, h8, h9, h10, h11, h12, h13, h14, h15]
  · intro b1 b2
    simp [expectedTrace]

/-- Witness for C2: requested rate 9600 with an environment in which every
transfer succeeds and the line-configuration read returns 7 bytes. -/
theorem claim2_bringup_fixed_order_witness :
    9600 ≤ 115200 ∧
    (∀ j, j < 16 → ∃ d, (fun _ => (Except.ok [0, 0, 0, 0, 0, 0, 0] :
        Except Nat (List Nat))) j = .ok d) ∧
    (∀ d, (fun _ => (Except.ok [0, 0, 0, 0, 0, 0, 0] :
        Except Nat (List Nat))) 11 = .ok d → d.length = 7) ∧
    ((runBringup (fun _ => Except.ok [0, 0, 0, 0, 0, 0, 0]) 9600).1 =
        expectedTrace (nearestBaud 9600) ∧
     (runBringup (fun _ => Except.ok [0, 0, 0, 0, 0, 0, 0]) 9600).2 = [.ready] ∧
     (∀ b1 b2, (expectedTrace b1).set 12 (vendorWriteReq 0 0) =
               (expectedTrace b2).set 12 (vendorWriteReq 0 0))) :=
  ⟨by decide, fun _ _ => ⟨_, rfl⟩, fun d h => by cases h; rfl,
   claim2_bringup_fixed_order (fun _ => Except.ok [0, 0, 0, 0, 0, 0, 0]) 9600
     (by decide) (fun _ _ => ⟨_, rfl⟩) (fun d h => by cases h; rfl)⟩

/-- Claim C3: if the k-th transfer of the bring-up chain fails with a
transport error while all earlier ones succeeded, then no later step is
issued (the trace stops right after the failing request), exactly one
`error` notification is produced, and `ready` is never produced. -/
theorem claim3_failure_short_circuits (env : Env) (r k e : Nat)
    (hr : r ≤ 115200) (hok : ∀ j, j < k → ∃ d, env j = .ok d)
    (herr : env k = .error e) (hk : k < 16) :
    (runBringup env r).2 = [.error (.transport e)] ∧
    (runBringup env r).1.length = k + 1 := by
  by_cases h11 : k < 11
  · have hg := go_fail_at env preSteps 0 [] k e
      (by simp [preSteps]; omega) (by simpa using hok) (by simpa using herr)
    constructor
    · simp [runBringup, hg.1]
    · simp [runBringup, hg.1, hg.2]
  · push_neg at h11
    have hpre := go_ok_of_all_ok env preSteps 0 []
      (by
        intro j hj
        simp only [preSteps, List.length] at hj
        simpa using hok j (by omega))
    have hg2 := go_fail_at env (baudSteps r) 11 (go env 0 [] preSteps).2.1
      (k - 11) e (by simp [baudSteps]; omega)
      (fun j hj => hok (11 + j) (by omega))
      (by rw [show 11 + (k - 11) = k by omega]; exact herr)
    constructor
    · simp [runBringup, hpre.1, hr, hg2.1]
    · have hplen : (go env 0 [] preSteps).1.length = 11 := by
        rw [hpre.2]; rfl
      simp [runBringup, hpre.1, hr, hg2.1, hg2.2, hplen]
      omega

/-- Witness for C3: requested rate 9600 with an environment whose fourth
transfer (index 3) fails with transport code 42. -/
theorem claim3_failure_short_circuits_witness :
    9600 ≤ 115200 ∧
    (∀ j, j < 3 → ∃ d, (fun j => if j = 3 then (Except.error 42 :
        Except Nat (List Nat)) else .ok []) j = .ok d) ∧
    ((fun j => if j = 3 then (Except.error 42 : Except Nat (List Nat))
        else .ok []) 3 = .error 42) ∧
    3 < 16 ∧
    ((runBringup (fun j => if j = 3 then (Except.error 42 :
        Except Nat (List Nat)) else .ok []) 9600).2 =
          [.error (.transport 42)] ∧
     (runBringup (fun j => if j = 3 then (Except.error 42 :
        Except Nat (List Nat)) else .ok []) 9600).1.length = 3 + 1) :=
  ⟨by decide, fun j hj => ⟨[], if_neg (by omega)⟩, rfl, by decide,
   claim3_failure_short_circuits _ 9600 3 42 (by decide)
     (fun j hj => ⟨[], if_neg (by omega)⟩) rfl (by decide)⟩

/-- Claim C6: for every requested rate `r ≤ 115200` (in particular 38400,
which the negotiator selects unchanged) and every 7-byte template, the
line-configuration block written back is 7 bytes whose bytes 0-3 equal the
selected rate encoded little-endian, byte 4 = 0 (one stop bit), byte 5 = 0
(no parity) and byte 6 = 8 (eight data bits). -/
theorem claim6_line_config_block (r : Nat) (t : List Nat)
    (hr : r ≤ 115200) (ht : t.length = 7) :
    (∃ b0 b1 b2 b3,
      mutateParams (nearestBaud r) t = [b0, b1, b2, b3, 0, 0, 8] ∧
      b0 + 256 * b1 + 65536 * b2 + 16777216 * b3 = nearestBaud r) ∧
    (38400 ∈ SupportedBaudrates → nearestBaud 38400 = 38400) := by
  have hb := nearestBaud_le r
  refine ⟨⟨_, _, _, _, mutateParams_of_length7 ht (nearestBaud r), ?_⟩,
    fun h => nearestBaud_idem h⟩
  omega

/-- Witness for C6 at requested rate 38400 and an all-zero template. -/
theorem claim6_line_config_block_witness :
    38400 ≤ 115200 ∧ ([0, 0, 0, 0, 0, 0, 0] : List Nat).length = 7 ∧
    ((∃ b0 b1 b2 b3,
       mutateParams (nearestBaud 38400) [0, 0, 0, 0, 0, 0, 0] =
         [b0, b1, b2, b3, 0, 0, 8] ∧
       b0 + 256 * b1 + 65536 * b2 + 16777216 * b3 = nearestBaud 38400) ∧
     (38400 ∈ SupportedBaudrates → nearestBaud 38400 = 38400)) :=
  ⟨by decide, rfl,
   claim6_line_config_block 38400 [0, 0, 0, 0, 0, 0, 0] (by decide) rfl⟩

/-- Claim C7: for every requested rate `r > 115200` (with the preceding
fixed register steps completing), bring-up fails with the assertion
`baud <= 115200` rather than silently clamping: the emitted event is the
assertion error, only the 11 pre-negotiation steps were issued, and no
line-configuration transfer (request type 0xa1 or 0x21) ever appears in
the trace. -/
theorem claim7_assert_no_clamp (env : Env) (r : Nat) (hr : 115200 < r)
    (hok : ∀ j, j < 11 → ∃ d, env j = .ok d) :
    (runBringup env r).2 = [.error .assertionFailed] ∧
    (runBringup env r).1.length = 11 ∧
    ∀ req ∈ (runBringup env r).1,
      Req.requestType req ≠ 0xa1 ∧ Req.requestType req ≠ 0x21 := by
  obtain ⟨d0, h0⟩ := hok 0 (by omega)
  obtain ⟨d1, h1⟩ := hok 1 (by omega)
  obtain ⟨d2, h2⟩ := hok 2 (by omega)
  obtain ⟨d3, h3⟩ := hok 3 (by omega)
  obtain ⟨d4, h4⟩ := hok 4 (by omega)
  obtain ⟨d5, h5⟩ := hok 5 (by omega)
  obtain ⟨d6, h6⟩ := hok 6 (by omega)
  obtain ⟨d7, h7⟩ := hok 7 (by omega)
  obtain ⟨d8, h8⟩ := hok 8 (by omega)
  obtain ⟨d9, h9⟩ := hok 9 (by omega)
  obtain ⟨d10, h10⟩ := hok 10 (by omega)
  have hnot : ¬ r ≤ 115200 := by omega
  refine ⟨?_, ?_, ?_⟩ <;>
    simp [runBringup, go, preSteps, hnot, vendorReadReq, vendorWriteReq,
      Req.requestType, h0, h1, h2, h3, h4, h5, h6, h7, h8, h9, h10]

/-- Witness for C7 at requested rate 230400 with all transfers succeeding. -/
theorem claim7_assert_no_clamp_witness :
    115200 < 230400 ∧
    (∀ j, j < 11 → ∃ d, (fun _ => (Except.ok [] : Except Nat (List Nat))) j = .ok d) ∧
    ((runBringup (fun _ => Except.ok []) 230400).2 = [.error .assertionFailed] ∧
     (runBringup (fun _ => Except.ok []) 230400).1.length = 11 ∧
     ∀ req ∈ (runBringup (fun _ => Except.ok []) 230400).1,
       Req.requestType req ≠ 0xa1 ∧ Req.requestType req ≠ 0x21) :=
  ⟨by decide, fun _ _ => ⟨_, rfl⟩,
   claim7_assert_no_clamp (fun _ => Except.ok []) 230400 (by decide)
     (fun _ _ => ⟨_, rfl⟩)⟩

/-! ## Construction preconditions -/

theorem openSession_ok_iff (all : List UsbDevice) (port : Nat) (d : UsbDevice) :
    openSession all port = .ok d ↔
      ((findDevices 0x067b 0x2303 all)[port]? = some d ∧
       d.bDeviceClass ≠ 0x02 ∧ d.bMaxPacketSize0 = 0x40 ∧
       d.interfaceCount = 1) := by
  constructor
  · intro hok
    unfold openSession at hok
    dsimp only at hok
    split at hok
    · next h =>
      split_ifs at hok with h1 h2 h3
      injection hok with h4
      subst h4
      refine ⟨List.getElem?_eq_getElem h, h1, ?_, ?_⟩
      · exact not_ne_iff.mp h2
      · exact not_ne_iff.mp h3
    · next h => exact absurd hok (by simp)
  · rintro ⟨hsome, hclass, hsize, hiface⟩
    have h : port < (findDevices 0x067b 0x2303 all).length := by
      by_contra hn
      rw [List.getElem?_eq_none (by omega)] at hsome
      cases hsome
    have hdev : (findDevices 0x067b 0x2303 all)[port] = d := by
      rw [List.getElem?_eq_getElem h] at hsome
      exact Option.some.inj hsome
    unfold openSession
    rw [dif_pos h, hdev, if_neg hclass, if_neg (not_ne_iff.mpr hsize),
      if_neg (not_ne_iff.mpr hiface)]

/-- Claim C8: construction with port index `p` yields a session exactly
when a `p`-th device matching vendor 0x067B / product 0x2303 exists (so at
least `p + 1` matching devices), its class is not the reserved
communications-class value 0x02, its max control-packet size equals the HX
value 0x40, and it exposes exactly one interface; the session then holds
exactly the `p`-th enumerated matching device. -/
theorem claim8_open_preconditions (all : List UsbDevice) (port : Nat) :
    ((∃ d, openSession all port = .ok d) ↔
      (∃ d, (findDevices 0x067b 0x2303 all)[port]? = some d ∧
        d.bDeviceClass ≠ 0x02 ∧ d.bMaxPacketSize0 = 0x40 ∧
        d.interfaceCount = 1)) ∧
    (∀ d, openSession all port = .ok d →
      (findDevices 0x067b 0x2303 all)[port]? = some d) :=
  ⟨exists_congr fun d => openSession_ok_iff all port d,
   fun d hd => ((openSession_ok_iff all port d).mp hd).1⟩

/-- Witness for C8: a single matching HX device opened at port 0. -/
theorem claim8_open_preconditions_witness :
    openSession [⟨0x067b, 0x2303, 0, 0x40, 1⟩] 0 =
      .ok ⟨0x067b, 0x2303, 0, 0x40, 1⟩ ∧
    (findDevices 0x067b 0x2303 [⟨0x067b, 0x2303, 0, 0x40, 1⟩])[0]? =
      some ⟨0x067b, 0x2303, 0, 0x40, 1⟩ :=
  ⟨rfl,
   (claim8_open_preconditions [⟨0x067b, 0x2303, 0, 0x40, 1⟩] 0).2
     ⟨0x067b, 0x2303, 0, 0x40, 1⟩ rfl⟩
